import Mathlib

/-!
Verification development for the YaMDb review API
(`api_yamdb/api/serializers.py`, `api_yamdb/api/views.py`,
`users/migrations/0002_auto_20230222_1553.py`).

The Django/DRF request handlers and serializer validations are shallowly
embedded as pure Lean functions over explicit stores (lists of records).
Database tables become lists, `filter(...).exists()` becomes `List.any`,
`get_object_or_404` becomes a `find?`-based lookup, and raised
`ValidationError`s become error constructors of an explicit result type.
Framework primitives that are deterministic black boxes from this code's
point of view (`default_token_generator.make_token` / `check_token`,
`RefreshToken.for_user`) are taken as function parameters.
-/

namespace YaMDb

/-! ## Data model

Persisted records, as the views and serializers use them.  `User.role`
stores one of "user" / "moderator" / "admin" (migration 0002; default
"user").  `Review.title` and `Comment.review` are foreign keys held as ids. -/

structure UserRec where
  username : String
  email : String
  firstName : String
  lastName : String
  bio : String
  role : String
deriving DecidableEq, Repr

structure TitleRec where
  id : Nat
  name : String
deriving DecidableEq, Repr

structure ReviewRec where
  id : Nat
  text : String
  author : String
  score : Int
  title : Nat
deriving DecidableEq, Repr

structure CommentRec where
  id : Nat
  text : String
  author : String
  review : Nat
deriving DecidableEq, Repr

/-- Outcome of serializer validation: either the validated data is returned
unchanged, or a `serializers.ValidationError` is raised (surfacing as a
400-class response). -/
inductive VResult (α : Type) where
  | ok (data : α)
  | validationError (msg : String)
deriving DecidableEq, Repr

/-- Outcome of a request handler. `ok200` carries the response payload,
`badRequest` a 400-class response, `notFound` a 404-class response
(raised `Http404` from `get_object_or_404`). -/
inductive HttpResult (α : Type) where
  | ok200 (data : α)
  | badRequest (msg : String)
  | notFound
deriving DecidableEq, Repr

/-! ## ReviewSerializer (serializers.py) -/

/-- Method `ReviewSerializer.validate`: if the request method is not POST the data
passes through unchanged; on POST, raise a validation error when a review
by the same author for the same title already exists. -/
def ReviewSerializer.validate {α : Type} (method : String) (author : String)
    (titleId : Nat) (reviews : List ReviewRec) (data : α) : VResult α :=
  if ¬ (method = "POST") then .ok data
  else if reviews.any (fun r => r.author == author && r.title == titleId) then
    .validationError "You have already left a review for this title"
  else .ok data

/-- Method `ReviewSerializer.validate_score`: the score must satisfy
`1 <= value <= 10`, otherwise a validation error is raised. -/
def ReviewSerializer.validate_score (value : Int) : VResult Int :=
  if ¬ (1 ≤ value ∧ value ≤ 10) then
    .validationError "The score can only be from 1 to 10"
  else .ok value

/-! ## Self-profile endpoint (UserViewSet.get_user_info, views.py) -/

/-- A partial-update (PATCH) payload: each profile field may or may not be
present in `request.data`. -/
structure PatchData where
  username : Option String := none
  email : Option String := none
  firstName : Option String := none
  lastName : Option String := none
  bio : Option String := none
  role : Option String := none
deriving DecidableEq, Repr

/-- Saving `UserSerializer(user, data=..., partial=True)`: every field listed
in `Meta.fields` (username, email, first_name, last_name, bio, role) that is
present in the payload overwrites the stored value. -/
def UserSerializer.save (u : UserRec) (d : PatchData) : UserRec :=
  { username := d.username.getD u.username
    email := d.email.getD u.email
    firstName := d.firstName.getD u.firstName
    lastName := d.lastName.getD u.lastName
    bio := d.bio.getD u.bio
    role := d.role.getD u.role }

/-- Saving `ReadOnlyRole(user, data=..., partial=True)`: same as
`UserSerializer` except `read_only_fields = ('role',)`, so a `role` value in
the payload is ignored and the stored role is kept. -/
def ReadOnlyRole.save (u : UserRec) (d : PatchData) : UserRec :=
  { UserSerializer.save u d with role := u.role }

/-- Modelled from the spec: the `User.is_admin` property lives in
`users/models.py`, which is not among the provided sources.  The spec's role
tiers are user / moderator / admin and the self-profile endpoint "silently
downgrades to a role-read-only serializer unless the caller is an admin", so
a user is an admin exactly when their stored role is "admin". -/
def UserRec.is_admin (u : UserRec) : Bool :=
  u.role == "admin"

/-- Handler `UserViewSet.get_user_info` on PATCH: admins save through
`UserSerializer` (role writable), everyone else through `ReadOnlyRole`
(role read-only); the updated record is stored and echoed with 200. -/
def UserViewSet.get_user_info_patch (u : UserRec) (d : PatchData) : UserRec :=
  if u.is_admin then UserSerializer.save u d
  else ReadOnlyRole.save u d

/-! ## Signup (SignupView.post, views.py) -/

/-- An email handed to `send_mail`. -/
structure EmailMsg where
  subject : String
  message : String
  recipient : String
deriving DecidableEq, Repr

/-- The persistent state the signup endpoint touches: the user table and the
outbox of sent mails. -/
structure SignupState where
  users : List UserRec
  outbox : List EmailMsg
deriving DecidableEq, Repr

/-- Call `User.objects.create_user(username=..., email=...)`: remaining fields
take their defaults (blank names/bio, role "user" per migration 0002). -/
def create_user (un em : String) : UserRec :=
  { username := un, email := em, firstName := "", lastName := "",
    bio := "", role := "user" }

/-- The message body built in `SignupView.post` around the confirmation
code. -/
def signupEmailBody (un code : String) : String :=
  "Hi, " ++ un ++ "!" ++ "Your confirmation code: " ++ code

/-- Handler `SignupView.post`.  `makeToken` stands for
`default_token_generator.make_token`.  The request fields are `Option`s
(`request.data.get` yields None when absent; a None never matches the
non-null username/email columns, and the serializer then rejects the
missing required field).  Branches, in source order:
1. a user with the identical (username, email) pair exists: echo the
   request data with 200, touching nothing;
2. serializer validation fails — here, a missing required field or a
   username already taken (`unique=True` on `User.username`, migration
   0002): 400, no user created, no mail sent;
3. otherwise create the user, make a confirmation code for it, email the
   code to the registered address, and return 200. -/
def SignupView.post (makeToken : UserRec → String) (st : SignupState)
    (username email : Option String) :
    HttpResult (String × String) × SignupState :=
  match username, email with
  | some un, some em =>
    if st.users.any (fun u => u.username == un && u.email == em) then
      (.ok200 (un, em), st)
    else if st.users.any (fun u => u.username == un) then
      (.badRequest "username already exists", st)
    else
      let user := create_user un em
      let code := makeToken user
      let msg : EmailMsg :=
        { subject := "Confirmation code for YaMDb"
          message := signupEmailBody un code
          recipient := em }
      (.ok200 (un, em), { users := st.users ++ [user],
                          outbox := st.outbox ++ [msg] })
  | _, _ => (.badRequest "this field is required", st)

/-! ## Token exchange (GetTokenView.post, views.py) -/

/-- Handler `GetTokenView.post`.  `checkToken` stands for
`default_token_generator.check_token` (a deterministic function of the user
record and the submitted code), `tokenFor` for
`str(RefreshToken.for_user(user).access_token)`.  `TokenSerializer` requires
both fields; `get_object_or_404(User, username=...)` yields a 404 when no
such user exists; a failing check yields `HttpResponseBadRequest`. -/
def GetTokenView.post (checkToken : UserRec → String → Bool)
    (tokenFor : UserRec → String) (users : List UserRec)
    (username code : Option String) : HttpResult String :=
  match username, code with
  | some un, some c =>
    match users.find? (fun u => u.username == un) with
    | none => .notFound
    | some user =>
      if ¬ checkToken user c then .badRequest "Wrong confirmation code"
      else .ok200 (tokenFor user)
  | _, _ => .badRequest "this field is required"

/-- The token-exchange handler as a step on the persistent state: the body
of `GetTokenView.post` performs no write to the user table (no `save`, no
password or last-login update), so the store after the request is the store
before it. -/
def GetTokenView.step (checkToken : UserRec → String → Bool)
    (tokenFor : UserRec → String) (users : List UserRec)
    (username code : Option String) : HttpResult String × List UserRec :=
  (GetTokenView.post checkToken tokenFor users username code, users)

/-! ## Nested review / comment lookup (ReviewViewSet, CommentViewSet) -/

/-- Shortcut `get_object_or_404` over a table: the first record matching the filter,
or a raised `Http404` (modelled as `Except.error`). -/
def get_object_or_404 {α : Type} (l : List α) (p : α → Bool) :
    Except Unit α :=
  match l.find? p with
  | none => .error ()
  | some x => .ok x

/-- Method `ReviewViewSet.get_queryset`: resolve the title from the path
(`get_object_or_404(Title, id=title_id)`), then return its reviews. -/
def ReviewViewSet.get_queryset (titles : List TitleRec)
    (reviews : List ReviewRec) (titleId : Nat) :
    Except Unit (List ReviewRec) :=
  match get_object_or_404 titles (fun x => x.id == titleId) with
  | .error e => .error e
  | .ok t => .ok (reviews.filter (fun r => r.title == t.id))

/-- Method `CommentViewSet.get_queryset`: resolve the title, then the review by
`id=review_id, title=title` (so a review under a different title is a
lookup failure), then return the review's comments. -/
def CommentViewSet.get_queryset (titles : List TitleRec)
    (reviews : List ReviewRec) (comments : List CommentRec)
    (titleId reviewId : Nat) : Except Unit (List CommentRec) :=
  match get_object_or_404 titles (fun x => x.id == titleId) with
  | .error e => .error e
  | .ok t =>
    match get_object_or_404 reviews
        (fun r => r.id == reviewId && r.title == t.id) with
    | .error e => .error e
    | .ok rv => .ok (comments.filter (fun c => c.review == rv.id))

/-! ## Title rating (TitleViewSet queryset annotation + serializers) -/

/-- SQL `AVG` as the database computes it for
`annotate(Avg('reviews__score'))`: NULL over the empty set, otherwise the
running sum divided by the row count. -/
def sqlAvg (xs : List Int) : Option ℚ :=
  match xs with
  | [] => none
  | _ => some (((xs.foldl (· + ·) 0 : Int) : ℚ) / (xs.length : ℚ))

/-- The `reviews__score__avg` annotation attached to a title by
`TitleViewSet.queryset`: the average over the scores of that title's
reviews. -/
def TitleViewSet.annotatedRating (reviews : List ReviewRec)
    (t : TitleRec) : Option ℚ :=
  sqlAvg ((reviews.filter (fun r => r.title == t.id)).map (fun r => r.score))

/-- DRF `IntegerField.to_representation` on the read-only `rating` field:
Python `int(...)` truncates the annotated average toward zero; a NULL
annotation serialises as null. -/
def integerFieldRepr (v : Option ℚ) : Option Int :=
  v.map (fun q => Int.tdiv q.num (Int.ofNat q.den))

/-- The `rating` value the title serializers output: the representation of
the `reviews__score__avg` annotation (declared `read_only=True`, sourced
from the queryset annotation, never from request input). -/
def TitleSerializer.rating (reviews : List ReviewRec) (t : TitleRec) :
    Option Int :=
  integerFieldRepr (TitleViewSet.annotatedRating reviews t)

/-! ## Concrete fixtures used by witnesses -/

/-- Fixture: two stored reviews of title 7, scored 4 and 5. -/
def twoReviews : List ReviewRec :=
  [{ id := 1, text := "", author := "a", score := 4, title := 7 },
   { id := 2, text := "", author := "b", score := 5, title := 7 }]

/-- Fixture: the title the two fixture reviews refer to. -/
def exampleTitle : TitleRec := { id := 7, name := "t" }

/-! ## Theorems -/

/-- C1: the duplicate-review check raises if and only if the request is a
create (POST) and a review with the same author and title already exists;
otherwise — in particular for every non-create request — validation passes
the data through unchanged.  So a second review by the same user on the
same title cannot be created, while an update of an existing review is not
restricted. -/
theorem review_duplicate_check (α : Type) (method author : String)
    (titleId : Nat) (reviews : List ReviewRec) (data : α) :
    (ReviewSerializer.validate method author titleId reviews data = .ok data ↔
      ¬ (method = "POST" ∧ ∃ r ∈ reviews, r.author = author ∧ r.title = titleId)) ∧
    (method ≠ "POST" →
      ReviewSerializer.validate method author titleId reviews data = .ok data) := by
  have hiff : (reviews.any (fun r => r.author == author && r.title == titleId)
      = true) ↔ ∃ r ∈ reviews, r.author = author ∧ r.title = titleId := by
    simp [List.any_eq_true, Bool.and_eq_true, beq_iff_eq]
  constructor
  · unfold ReviewSerializer.validate
    by_cases hm : method = "POST"
    · by_cases hd : reviews.any (fun r => r.author == author && r.title == titleId) = true
      · simp [hm, hd, hiff.mp hd]
      · have hne : ¬ ∃ r ∈ reviews, r.author = author ∧ r.title = titleId :=
          fun h => hd (hiff.mpr h)
        simp [hm, hd]
        simpa using hne
    · simp [hm]
  · intro hm
    unfold ReviewSerializer.validate
    simp [hm]

/-- C1 witness: a POST by an author who already reviewed title 1 is
rejected, while a PATCH in the same situation passes. -/
theorem review_duplicate_check_witness :
    (ReviewSerializer.validate "PATCH" "alice" 1
        [{ id := 1, text := "t", author := "alice", score := 5, title := 1 }]
        "payload" = .ok "payload") ∧
    ¬ (ReviewSerializer.validate "POST" "alice" 1
        [{ id := 1, text := "t", author := "alice", score := 5, title := 1 }]
        "payload" = .ok "payload") := by
  refine ⟨(review_duplicate_check String "PATCH" "alice" 1 _ "payload").2 (by decide), ?_⟩
  rw [(review_duplicate_check String "POST" "alice" 1 _ "payload").1]
  decide

/-- C2: an integer score passes `validate_score` exactly when
`1 ≤ score ≤ 10`; any value outside that range is rejected with a
validation error, and the boundary values 1 and 10 are accepted. -/
theorem score_range_check (value : Int) :
    (ReviewSerializer.validate_score value = .ok value ↔
      1 ≤ value ∧ value ≤ 10) ∧
    (¬ (1 ≤ value ∧ value ≤ 10) →
      ReviewSerializer.validate_score value =
        .validationError "The score can only be from 1 to 10") ∧
    ReviewSerializer.validate_score 1 = .ok 1 ∧
    ReviewSerializer.validate_score 10 = .ok 10 := by
  refine ⟨?_, ?_, by decide, by decide⟩
  · unfold ReviewSerializer.validate_score
    by_cases h : 1 ≤ value ∧ value ≤ 10 <;> simp [h]
  · intro h
    unfold ReviewSerializer.validate_score
    simp [h]

/-- C2 witness: 0 and 11 are rejected, 1 and 10 accepted. -/
theorem score_range_check_witness :
    ReviewSerializer.validate_score 0 =
      .validationError "The score can only be from 1 to 10" ∧
    ReviewSerializer.validate_score 11 =
      .validationError "The score can only be from 1 to 10" ∧
    ReviewSerializer.validate_score 1 = .ok 1 ∧
    ReviewSerializer.validate_score 10 = .ok 10 :=
  ⟨(score_range_check 0).2.1 (by decide),
   (score_range_check 11).2.1 (by decide),
   (score_range_check 1).2.2.1,
   (score_range_check 10).2.2.2⟩

/-- C3: a PATCH to the self-profile endpoint leaves a non-admin caller's
stored role unchanged even when the payload carries a `role` value, while
for an admin caller the payload's `role` (when present) becomes the stored
role; the other writable profile fields follow the payload for both kinds
of caller. -/
theorem me_patch_role (u : UserRec) (d : PatchData) :
    (u.is_admin = false →
      (UserViewSet.get_user_info_patch u d).role = u.role) ∧
    (u.is_admin = true →
      (UserViewSet.get_user_info_patch u d).role = d.role.getD u.role) ∧
    (UserViewSet.get_user_info_patch u d).firstName = d.firstName.getD u.firstName ∧
    (UserViewSet.get_user_info_patch u d).lastName = d.lastName.getD u.lastName ∧
    (UserViewSet.get_user_info_patch u d).bio = d.bio.getD u.bio ∧
    (UserViewSet.get_user_info_patch u d).username = d.username.getD u.username ∧
    (UserViewSet.get_user_info_patch u d).email = d.email.getD u.email := by
  unfold UserViewSet.get_user_info_patch ReadOnlyRole.save UserSerializer.save
  by_cases h : u.is_admin = true <;> simp [h]

/-- C3 witness: a payload that tries to set `role := "admin"` leaves an
ordinary user's role at "user", but turns a moderator role into "admin"
when the caller is an admin; the bio field is updated either way. -/
theorem me_patch_role_witness :
    (UserViewSet.get_user_info_patch
      { username := "bob", email := "b@x", firstName := "", lastName := "",
        bio := "", role := "user" }
      { role := some "admin", bio := some "hi" }).role = "user" ∧
    (UserViewSet.get_user_info_patch
      { username := "root", email := "r@x", firstName := "", lastName := "",
        bio := "", role := "admin" }
      { role := some "moderator", bio := some "hi" }).role = "moderator" ∧
    (UserViewSet.get_user_info_patch
      { username := "bob", email := "b@x", firstName := "", lastName := "",
        bio := "", role := "user" }
      { role := some "admin", bio := some "hi" }).bio = "hi" := by
  refine ⟨(me_patch_role _ _).1 (by decide), ?_, (me_patch_role _ _).2.2.2.2.1⟩
  rw [(me_patch_role _ _).2.1 (by decide)]
  rfl

/-- Helper: the identical-pair `exists()` query matches exactly when a user
with both the given username and the given email is in the table. -/
theorem signup_pair_any_iff (st : SignupState) (un em : String) :
    (st.users.any fun u => u.username == un && u.email == em) = true ↔
      ∃ u ∈ st.users, u.username = un ∧ u.email = em := by
  simp [List.any_eq_true]

/-- Helper: the username-taken query matches exactly when some user in the
table carries the given username. -/
theorem signup_name_any_iff (st : SignupState) (un : String) :
    (st.users.any fun u => u.username == un) = true ↔
      ∃ u ∈ st.users, u.username = un := by
  simp [List.any_eq_true]

/-- C4 counterexample: with "alice" already registered under
"a@example.com", a signup for ("alice", "b@example.com") presents a pair
no existing user matches, yet — contrary to the claim's "otherwise it
creates the user, ..., returning 200" — the endpoint answers with a
validation error and the user table is left as it was. -/
theorem signup_otherwise_counterexample :
    (¬ ∃ u ∈ [{ username := "alice", email := "a@example.com", firstName := "",
                lastName := "", bio := "", role := "user" : UserRec }],
        u.username = "alice" ∧ u.email = "b@example.com") ∧
    SignupView.post (fun _ => "code")
      { users := [{ username := "alice", email := "a@example.com",
                    firstName := "", lastName := "", bio := "",
                    role := "user" }], outbox := [] }
      (some "alice") (some "b@example.com") =
      (.badRequest "username already exists",
       { users := [{ username := "alice", email := "a@example.com",
                     firstName := "", lastName := "", bio := "",
                     role := "user" }], outbox := [] }) := by
  decide

/-- C4 (amended): signup behaviour over present (username, email) fields:
an identical existing pair is answered 200 with nothing changed; a taken
username with a different email is a validation error with nothing
changed; a free username creates exactly that user, generates a
confirmation code for it and emails the code to the given address,
answering 200. -/
theorem signup_behavior (makeToken : UserRec → String) (st : SignupState)
    (un em : String) :
    ((∃ u ∈ st.users, u.username = un ∧ u.email = em) →
      SignupView.post makeToken st (some un) (some em) = (.ok200 (un, em), st)) ∧
    ((¬ ∃ u ∈ st.users, u.username = un ∧ u.email = em) →
      (∃ u ∈ st.users, u.username = un) →
      SignupView.post makeToken st (some un) (some em) =
        (.badRequest "username already exists", st)) ∧
    ((¬ ∃ u ∈ st.users, u.username = un) →
      SignupView.post makeToken st (some un) (some em) =
        (.ok200 (un, em),
         { users := st.users ++ [create_user un em]
           outbox := st.outbox ++
             [{ subject := "Confirmation code for YaMDb"
                message := signupEmailBody un (makeToken (create_user un em))
                recipient := em }] })) := by
  refine ⟨?_, ?_, ?_⟩
  · intro h
    simp only [SignupView.post]
    rw [if_pos ((signup_pair_any_iff st un em).mpr h)]
  · intro h1 h2
    have hb1 : ¬ (st.users.any fun u => u.username == un && u.email == em) = true :=
      fun hb => h1 ((signup_pair_any_iff st un em).mp hb)
    simp only [SignupView.post]
    rw [if_neg hb1, if_pos ((signup_name_any_iff st un).mpr h2)]
  · intro h
    have hb1 : ¬ (st.users.any fun u => u.username == un && u.email == em) = true := by
      intro hb
      obtain ⟨u, hu, hun, _⟩ := (signup_pair_any_iff st un em).mp hb
      exact h ⟨u, hu, hun⟩
    have hb2 : ¬ (st.users.any fun u => u.username == un) = true :=
      fun hb => h ((signup_name_any_iff st un).mp hb)
    simp only [SignupView.post]
    rw [if_neg hb1, if_neg hb2]

/-- C4 witness: on an empty user table, signing up ("alice",
"a@example.com") creates the single user, mails the confirmation code to
that address and returns 200. -/
theorem signup_behavior_witness :
    SignupView.post (fun _ => "code") { users := [], outbox := [] }
      (some "alice") (some "a@example.com") =
      (.ok200 ("alice", "a@example.com"),
       { users := [create_user "alice" "a@example.com"]
         outbox := [{ subject := "Confirmation code for YaMDb"
                      message := signupEmailBody "alice" "code"
                      recipient := "a@example.com" }] }) :=
  (signup_behavior (fun _ => "code") { users := [], outbox := [] }
    "alice" "a@example.com").2.2 (by simp)

/-- C9: when the signup request matches an already-registered
(username, email) pair, the endpoint echoes the request data with 200 and
performs no other effect: the user table and the outbox are exactly as
before, and the result does not depend on the confirmation-code generator
at all, so no code is generated and no email is re-delivered. -/
theorem signup_existing_pair_frame (makeToken : UserRec → String)
    (st : SignupState) (un em : String)
    (h : ∃ u ∈ st.users, u.username = un ∧ u.email = em) :
    SignupView.post makeToken st (some un) (some em) = (.ok200 (un, em), st) := by
  simp only [SignupView.post]
  rw [if_pos ((signup_pair_any_iff st un em).mpr h)]

/-- C9 witness: re-signing up the already-registered pair ("alice",
"a@example.com") returns 200 and leaves both the user table and the outbox
untouched. -/
theorem signup_existing_pair_frame_witness :
    SignupView.post (fun _ => "fresh-code")
      { users := [{ username := "alice", email := "a@example.com",
                    firstName := "", lastName := "", bio := "",
                    role := "user" }], outbox := [] }
      (some "alice") (some "a@example.com") =
      (.ok200 ("alice", "a@example.com"),
       { users := [{ username := "alice", email := "a@example.com",
                     firstName := "", lastName := "", bio := "",
                     role := "user" }], outbox := [] }) :=
  signup_existing_pair_frame (fun _ => "fresh-code") _ "alice" "a@example.com"
    (by simp)

/-- C10: a signup whose username belongs to an existing user while the
email differs from every user carrying that name (no identical pair) is
not treated as already-registered: serializer validation rejects it on the
unique username, no user is created, no mail is sent, and the response is
not a 200. -/
theorem signup_username_taken (makeToken : UserRec → String)
    (st : SignupState) (un em : String)
    (h1 : ∃ u ∈ st.users, u.username = un)
    (h2 : ¬ ∃ u ∈ st.users, u.username = un ∧ u.email = em) :
    SignupView.post makeToken st (some un) (some em) =
      (.badRequest "username already exists", st) := by
  have hb1 : ¬ (st.users.any fun u => u.username == un && u.email == em) = true :=
    fun hb => h2 ((signup_pair_any_iff st un em).mp hb)
  simp only [SignupView.post]
  rw [if_neg hb1, if_pos ((signup_name_any_iff st un).mpr h1)]

/-- C10 witness: with "alice" registered under "a@example.com", a signup
for ("alice", "b@example.com") is rejected without creating a user. -/
theorem signup_username_taken_witness :
    SignupView.post (fun _ => "code")
      { users := [{ username := "alice", email := "a@example.com",
                    firstName := "", lastName := "", bio := "",
                    role := "user" }], outbox := [] }
      (some "alice") (some "b@example.com") =
      (.badRequest "username already exists",
       { users := [{ username := "alice", email := "a@example.com",
                     firstName := "", lastName := "", bio := "",
                     role := "user" }], outbox := [] }) :=
  signup_username_taken (fun _ => "code") _ "alice" "b@example.com"
    (by simp) (by simp)

/-- C5: once the username resolves to a user record, the token exchange
returns 200 with an access token for that user exactly when the submitted
confirmation code checks out against that record, and a 400-class response
on mismatch. -/
theorem token_exchange (checkToken : UserRec → String → Bool)
    (tokenFor : UserRec → String) (users : List UserRec) (un c : String)
    (user : UserRec)
    (h : users.find? (fun u => u.username == un) = some user) :
    (checkToken user c = true →
      GetTokenView.post checkToken tokenFor users (some un) (some c) =
        .ok200 (tokenFor user)) ∧
    (checkToken user c = false →
      GetTokenView.post checkToken tokenFor users (some un) (some c) =
        .badRequest "Wrong confirmation code") := by
  refine ⟨fun hc => ?_, fun hc => ?_⟩ <;> simp [GetTokenView.post, h, hc]

/-- C5 witness: with a checker accepting exactly "secret" for alice, the
exchange succeeds with alice's token on "secret" and fails with a
400-class response on "wrong". -/
theorem token_exchange_witness :
    GetTokenView.post (fun u c => u.username == "alice" && c == "secret")
      (fun u => String.append "jwt-" u.username)
      [{ username := "alice", email := "a@x", firstName := "", lastName := "",
         bio := "", role := "user" }]
      (some "alice") (some "secret") = .ok200 "jwt-alice" ∧
    GetTokenView.post (fun u c => u.username == "alice" && c == "secret")
      (fun u => String.append "jwt-" u.username)
      [{ username := "alice", email := "a@x", firstName := "", lastName := "",
         bio := "", role := "user" }]
      (some "alice") (some "wrong") = .badRequest "Wrong confirmation code" :=
  ⟨(token_exchange (fun u c => u.username == "alice" && c == "secret")
      (fun u => String.append "jwt-" u.username) _ "alice" "secret"
      { username := "alice", email := "a@x", firstName := "", lastName := "",
        bio := "", role := "user" } (by decide)).1 (by decide),
   (token_exchange (fun u c => u.username == "alice" && c == "secret")
      (fun u => String.append "jwt-" u.username) _ "alice" "wrong"
      { username := "alice", email := "a@x", firstName := "", lastName := "",
        bio := "", role := "user" } (by decide)).2 (by decide)⟩

/-- C6 counterexample: a confirmation code that exchanges successfully once
("secret" for alice) exchanges successfully a second time from the store
the first exchange leaves behind — the claim that one successful exchange
makes any further exchange of the same code impossible is false. -/
theorem token_single_use_counterexample :
    (GetTokenView.step (fun u c => u.username == "alice" && c == "secret")
        (fun u => String.append "jwt-" u.username)
        [{ username := "alice", email := "a@x", firstName := "", lastName := "",
           bio := "", role := "user" }]
        (some "alice") (some "secret")).1 = .ok200 "jwt-alice" ∧
    (GetTokenView.step (fun u c => u.username == "alice" && c == "secret")
        (fun u => String.append "jwt-" u.username)
        (GetTokenView.step (fun u c => u.username == "alice" && c == "secret")
            (fun u => String.append "jwt-" u.username)
            [{ username := "alice", email := "a@x", firstName := "",
               lastName := "", bio := "", role := "user" }]
            (some "alice") (some "secret")).2
        (some "alice") (some "secret")).1 = .ok200 "jwt-alice" := by
  decide

/-- C6 (amended): the token exchange never invalidates a confirmation code:
the handler leaves the user store unchanged, so repeating the very same
exchange from the post-exchange store yields the very same outcome — in
particular a code that was exchanged successfully exchanges successfully
again.  (A code stops validating only through the generator's own expiry
or through a later change to the user record, never through use.) -/
theorem token_exchange_not_invalidating (checkToken : UserRec → String → Bool)
    (tokenFor : UserRec → String) (users : List UserRec)
    (username code : Option String) :
    (GetTokenView.step checkToken tokenFor users username code).2 = users ∧
    (GetTokenView.step checkToken tokenFor
        (GetTokenView.step checkToken tokenFor users username code).2
        username code).1
      = (GetTokenView.step checkToken tokenFor users username code).1 :=
  ⟨rfl, rfl⟩

/-- C7: a nested review request 404s exactly when the title id in the path
matches no title; a nested comment request 404s exactly when the title id
matches no title or no review exists with the given review id under that
very title — so a comment request whose review id exists but hangs off a
different title is also a 404. -/
theorem nested_lookup_404 (titles : List TitleRec) (reviews : List ReviewRec)
    (comments : List CommentRec) (titleId reviewId : Nat) :
    (ReviewViewSet.get_queryset titles reviews titleId = .error () ↔
      ¬ ∃ t ∈ titles, t.id = titleId) ∧
    (CommentViewSet.get_queryset titles reviews comments titleId reviewId
        = .error () ↔
      ¬ ((∃ t ∈ titles, t.id = titleId) ∧
         (∃ r ∈ reviews, r.id = reviewId ∧ r.title = titleId))) := by
  constructor
  · cases hf : titles.find? (fun x => x.id == titleId) with
    | none =>
      have hnone : ∀ t ∈ titles, ¬ (t.id == titleId) = true :=
        List.find?_eq_none.mp hf
      refine iff_of_true ?_ ?_
      · simp [ReviewViewSet.get_queryset, get_object_or_404, hf]
      · rintro ⟨t, ht, hid⟩
        exact hnone t ht (by simpa using hid)
    | some t =>
      have hmem := List.mem_of_find?_eq_some hf
      have hp0 := List.find?_some hf
      refine iff_of_false ?_ (not_not_intro ⟨t, hmem, by simpa using hp0⟩)
      simp [ReviewViewSet.get_queryset, get_object_or_404, hf]
  · cases hf : titles.find? (fun x => x.id == titleId) with
    | none =>
      have hnone : ∀ t ∈ titles, ¬ (t.id == titleId) = true :=
        List.find?_eq_none.mp hf
      refine iff_of_true ?_ ?_
      · simp [CommentViewSet.get_queryset, get_object_or_404, hf]
      · rintro ⟨⟨t, ht, hid⟩, _⟩
        exact hnone t ht (by simpa using hid)
    | some t =>
      have hp0 := List.find?_some hf
      have hp : t.id = titleId := by simpa using hp0
      cases hr : reviews.find? (fun r => r.id == reviewId && r.title == t.id) with
      | none =>
        have hnone : ∀ r ∈ reviews,
            ¬ (r.id == reviewId && r.title == t.id) = true :=
          List.find?_eq_none.mp hr
        refine iff_of_true ?_ ?_
        · simp [CommentViewSet.get_queryset, get_object_or_404, hf, hr]
        · rintro ⟨_, r, hrmem, hrid, hrt⟩
          exact hnone r hrmem (by simp [hrid, hrt, hp])
      | some rv =>
        have hrvmem := List.mem_of_find?_eq_some hr
        have hrvp := List.find?_some hr
        have hrid : rv.id = reviewId ∧ rv.title = t.id := by simpa using hrvp
        refine iff_of_false ?_
          (not_not_intro ⟨⟨t, List.mem_of_find?_eq_some hf, hp⟩,
            rv, hrvmem, hrid.1, hp ▸ hrid.2⟩)
        simp [CommentViewSet.get_queryset, get_object_or_404, hf, hr]

/-- Helper: a non-NULL SQL average times the row count gives back the row
sum. -/
theorem sqlAvg_mul_length (xs : List Int) (q : ℚ) (h : sqlAvg xs = some q) :
    q * (xs.length : ℚ) = (xs.sum : ℚ) := by
  cases xs with
  | nil => simp [sqlAvg] at h
  | cons a l =>
    have h' : (((a :: l).foldl (· + ·) 0 : Int) : ℚ) /
        (((a :: l).length : ℕ) : ℚ) = q := by
      simpa [sqlAvg] using h
    have hn : (((a :: l).length : ℕ) : ℚ) ≠ 0 := by
      simp only [List.length_cons, Nat.cast_add, Nat.cast_one]
      positivity
    rw [← h', div_mul_cancel₀ _ hn, List.sum_eq_foldl]

/-- C8: the `rating` a title serialises is derived from the stored reviews
alone: it is null exactly when the title has no reviews, and whenever the
queryset annotation produces a value q for the title, q times the number of
the title's reviews equals the sum of their scores — q is their average. -/
theorem title_rating_avg (reviews : List ReviewRec) (t : TitleRec) :
    (TitleSerializer.rating reviews t = none ↔
      reviews.filter (fun r => r.title == t.id) = []) ∧
    (∀ q : ℚ, TitleViewSet.annotatedRating reviews t = some q →
      q * ((reviews.filter (fun r => r.title == t.id)).length : ℚ) =
        (((reviews.filter (fun r => r.title == t.id)).map
            (fun r => r.score)).sum : ℚ)) := by
  constructor
  · cases hfl : reviews.filter (fun r => r.title == t.id) with
    | nil =>
      simp [TitleSerializer.rating, integerFieldRepr,
            TitleViewSet.annotatedRating, sqlAvg, hfl]
    | cons a l =>
      simp [TitleSerializer.rating, integerFieldRepr,
            TitleViewSet.annotatedRating, sqlAvg, hfl]
  · intro q hq
    unfold TitleViewSet.annotatedRating at hq
    have h := sqlAvg_mul_length _ q hq
    simpa using h

/-- C8 witness: a title with two reviews scored 4 and 5 gets the annotated
average 9/2, and 9/2 times the two rows gives back the score sum 9. -/
theorem title_rating_avg_witness :
    TitleViewSet.annotatedRating twoReviews exampleTitle = some (9 / 2) ∧
    (9 / 2 : ℚ) *
        ((twoReviews.filter (fun r => r.title == exampleTitle.id)).length : ℚ) =
      (((twoReviews.filter (fun r => r.title == exampleTitle.id)).map
          (fun r => r.score)).sum : ℚ) := by
  have hav : TitleViewSet.annotatedRating twoReviews exampleTitle
      = some (9 / 2) := by
    simp [TitleViewSet.annotatedRating, sqlAvg, twoReviews, exampleTitle]
  exact ⟨hav, (title_rating_avg twoReviews exampleTitle).2 (9 / 2) hav⟩

end YaMDb
